import Mathlib

set_option maxHeartbeats 1000000

/- Shallow embedding of the batched GEMM dispatcher
   KokkosBatched::Impl::BatchedGemmWrapperInner::run
   (src/batched/dense/impl/KokkosBatched_HostLevel_Gemm_Impl.hpp)
   and of the rank-3 TeamVectorGemv specializations
   (src/src/batched/dense/impl/KokkosBatched_Gemv_TeamVector_Impl.hpp).

   Compile-time template parameters and predicates of the C++ code
   (array_layout of C, batch dimension placement, is_vector of the view
   value type, kk_is_gpu_exec_space, kk_is_x86_64_mem_space,
   kk_is_a64fx_mem_space, the ARMPL / VEGA908 / CUDA-RDC build flags)
   are gathered into an explicit StaticConfig record; the runtime handle
   fields used by the dispatcher form the Handle record. -/

/-- Storage layout of the C view (CViewType array_layout). -/
inductive CLayout
  | LayoutLeft
  | LayoutRight
  deriving DecidableEq

/-- Placement of the batch axis (ArgBatchSzDim, BatchLayout in the C++). -/
inductive BatchSzDim
  | Left
  | Right
  deriving DecidableEq

/-- Algorithm identifiers carried by the gemm handle, named as they appear
in the dispatch switch of BatchedGemmWrapperInner::run (the numeric enum
values of BaseHeuristicAlgos, BaseTplAlgos, BaseKokkosBatchedAlgos and
GemmKokkosBatchedAlgos are declared in KokkosBatched_Gemm_Handle.hpp). -/
inductive AlgoType
  | KK_SERIAL
  | SQUARE
  | TALL
  | WIDE
  | ARMPL
  | MKL
  | CUBLAS
  | MAGMA
  | KK_TEAM
  | KK_TEAMVECTOR
  | KK_SERIALSIMD
  | KK_TEAMSIMD
  | KK_SERIAL_RANK0
  | KK_SERIAL_SHMEM
  | KK_DBLBUF
  deriving DecidableEq

/-- Compile-time facts about one instantiation of BatchedGemmWrapperInner:
layout of C, batch-axis placement, whether the view value type is a SIMD
vector type, backend classification of the execution space, and the build
flags the dispatcher reads. -/
structure StaticConfig where
  cLayout : CLayout
  batchSzDim : BatchSzDim
  isVector : Bool
  onGpu : Bool
  onX86_64 : Bool
  onA64fx : Bool
  armplEnabled : Bool
  hipVega908 : Bool
  cudaRdc : Bool
  deriving DecidableEq

/-- Runtime fields of the BatchedGemmHandle read or written by run. -/
structure Handle where
  kernelAlgoType : AlgoType
  teamSz : Nat
  vecLen : Nat
  enableDebug : Bool
  deriving DecidableEq

/-- Serial gemm mode template argument (Algo::Gemm). -/
inductive GemmMode
  | Unblocked
  | Blocked
  deriving DecidableEq

/-- ResultsPerThread template argument. -/
inductive RPT
  | Rank0
  | Rank1
  | Rank2
  deriving DecidableEq

/-- BoundsCheck template argument of BatchedDblBufGemm. -/
inductive BoundsCheck
  | Yes
  | No
  deriving DecidableEq

/-- AlphaTag template argument of BatchedDblBufGemm. -/
inductive AlphaTag
  | Yes
  | No
  deriving DecidableEq

/-- The kernel instantiation the dispatcher invokes, recording the template
arguments that the dispatch branches actually choose. -/
inductive KernelInst
  | serial (mode : GemmMode) (rpt : RPT)
  | dblBuf (bc : BoundsCheck) (af : AlphaTag) (tm tn tk : Nat)
  | armpl
  deriving DecidableEq

/-- Errors thrown by run via throw_runtime_exception. -/
inductive GemmError
  | unsupportedSimdAlgo (a : AlgoType)
  | nonSquare (a : AlgoType) (c_m c_n : Nat)
  | unsupportedAlgo (a : AlgoType)
  deriving DecidableEq

/-- Rendering of an algorithm identifier used inside error messages; the
C++ prints the numeric enum value via std::to_string, we print the name. -/
def algoName : AlgoType → String
  | .KK_SERIAL => "KK_SERIAL"
  | .SQUARE => "SQUARE"
  | .TALL => "TALL"
  | .WIDE => "WIDE"
  | .ARMPL => "ARMPL"
  | .MKL => "MKL"
  | .CUBLAS => "CUBLAS"
  | .MAGMA => "MAGMA"
  | .KK_TEAM => "KK_TEAM"
  | .KK_TEAMVECTOR => "KK_TEAMVECTOR"
  | .KK_SERIALSIMD => "KK_SERIALSIMD"
  | .KK_TEAMSIMD => "KK_TEAMSIMD"
  | .KK_SERIAL_RANK0 => "KK_SERIAL_RANK0"
  | .KK_SERIAL_SHMEM => "KK_SERIAL_SHMEM"
  | .KK_DBLBUF => "KK_DBLBUF"

/-- Message text of each thrown error, following the ostringstream bodies
at lines 289-293, 356-360 and 515-518 of the dispatcher. -/
def GemmError.message : GemmError → String
  | .unsupportedSimdAlgo a =>
      "KokkosBatched::BatchedGemm does not support kernelAlgoType = "
        ++ algoName a ++ " with SIMD views."
  | .nonSquare a m n =>
      "KokkosBatched::BatchedGemm does not support kernelAlgoType = "
        ++ algoName a ++ " when c_m(" ++ toString m ++ ") != c_n("
        ++ toString n ++ ")"
  | .unsupportedAlgo a =>
      "KokkosBatched::BatchedGemm does not support kernelAlgoType = "
        ++ algoName a ++ "."

/-- Row tile extent kk_gemm_dlb_buf_tile_m, 32 for every execution space. -/
def kk_gemm_dlb_buf_tile_m (_cfg : StaticConfig) : Nat := 32

/-- Column tile extent kk_gemm_dlb_buf_tile_n, 32 for every execution space. -/
def kk_gemm_dlb_buf_tile_n (_cfg : StaticConfig) : Nat := 32

/-- K tile extent kk_gemm_dlb_buf_tile_k: 8 in the primary template, 16 in
the specialization for the HIP execution space compiled under
KOKKOS_ENABLE_HIP and KOKKOS_ARCH_VEGA908 (the MI100 workaround). -/
def kk_gemm_dlb_buf_tile_k (cfg : StaticConfig) : Nat :=
  if cfg.hipVega908 then 16 else 8

/-- kk_gemm_dbl_buf_alpha_in_fma_thresh: 24 under CUDA relocatable device
code, 64 otherwise. -/
def kk_gemm_dbl_buf_alpha_in_fma_thresh (cfg : StaticConfig) : Nat :=
  if cfg.cudaRdc then 24 else 64

/-- Extraction of c_m from the extents of C per the batch axis placement
(lines 317-325). -/
def cMof (d : BatchSzDim) (e0 e1 _e2 : Nat) : Nat :=
  match d with
  | .Left => e1
  | .Right => e0

/-- Extraction of c_n from the extents of C per the batch axis placement
(lines 317-325). -/
def cNof (d : BatchSzDim) (_e0 e1 e2 : Nat) : Nat :=
  match d with
  | .Left => e2
  | .Right => e1

/-- The algorithm identifiers accepted by the SIMD-view rank pre-check
switch (lines 277-295); every other identifier throws there when the view
value type is a SIMD vector type. -/
def simdAlgoOk : AlgoType → Bool
  | .KK_SERIAL => true
  | .SQUARE => true
  | .ARMPL => true
  | _ => false

/-- The GPU feasibility test for the tiled double-buffered path inside the
SQUARE case (lines 389-391): LayoutLeft asks 16 <= c_m, otherwise
(24 <= c_m and c_m <= 32) or 40 <= c_m. -/
def gpuTiledCond (lay : CLayout) (c_m : Nat) : Bool :=
  match lay with
  | .LayoutLeft => decide (16 ≤ c_m)
  | .LayoutRight => (decide (24 ≤ c_m) && decide (c_m ≤ 32)) || decide (40 ≤ c_m)

/-- bsgResultsPerThread selection (lines 364-368): Rank0 when the value
type is not a SIMD vector and the backend is a GPU, Rank2 otherwise. -/
def bsgResultsPerThread (cfg : StaticConfig) : RPT :=
  if !cfg.isVector && cfg.onGpu then RPT.Rank0 else RPT.Rank2

/-- bsgModeType selection (lines 370-379). -/
def bsgModeType (cfg : StaticConfig) : GemmMode :=
  if cfg.isVector then
    if cfg.onGpu || cfg.onX86_64 then GemmMode.Blocked else GemmMode.Unblocked
  else if cfg.onGpu then GemmMode.Unblocked
  else if cfg.onA64fx then GemmMode.Unblocked
  else GemmMode.Blocked

/-- Shallow embedding of BatchedGemmWrapperInner::run. The result is the
kernel instantiation invoked together with the handle state after dispatch,
or the thrown error together with the handle state at the throw (the only
handle write in the function is teamSz = vecLen = 8 on the tiled path, and
every throw happens before any kernel call). -/
def run (cfg : StaticConfig) (handle : Handle) (e0 e1 e2 : Nat) :
    Except (GemmError × Handle) (KernelInst × Handle) :=
  if cfg.isVector && !simdAlgoOk handle.kernelAlgoType then
    .error (.unsupportedSimdAlgo handle.kernelAlgoType, handle)
  else
    let c_m := cMof cfg.batchSzDim e0 e1 e2
    let c_n := cNof cfg.batchSzDim e0 e1 e2
    match handle.kernelAlgoType with
    | .SQUARE =>
      if c_m ≠ c_n then
        .error (.nonSquare .SQUARE c_m c_n, handle)
      else if cfg.onGpu && gpuTiledCond cfg.cLayout c_m then
        let h2 : Handle := { handle with teamSz := 8, vecLen := 8 }
        let bc := if c_m % 32 = 0 then BoundsCheck.No else BoundsCheck.Yes
        let af := if kk_gemm_dbl_buf_alpha_in_fma_thresh cfg ≤ c_m
                  then AlphaTag.Yes else AlphaTag.No
        .ok (.dblBuf bc af (kk_gemm_dlb_buf_tile_m cfg)
               (kk_gemm_dlb_buf_tile_n cfg) (kk_gemm_dlb_buf_tile_k cfg), h2)
      else
        .ok (.serial (bsgModeType cfg) (bsgResultsPerThread cfg), handle)
    | .ARMPL =>
      if cfg.armplEnabled then .ok (.armpl, handle)
      else .error (.unsupportedAlgo .ARMPL, handle)
    | .KK_SERIAL => .ok (.serial GemmMode.Unblocked RPT.Rank2, handle)
    | .KK_SERIAL_RANK0 => .ok (.serial GemmMode.Unblocked RPT.Rank0, handle)
    | .KK_DBLBUF => .ok (.dblBuf BoundsCheck.Yes AlphaTag.No 1 1 1, handle)
    | a => .error (.unsupportedAlgo a, handle)

/-- Runs the dispatcher and applies the selected kernel, given as a state
transformer on the C payload. A thrown error leaves C untouched: the throw
happens before any kernel call and the dispatcher itself never writes C. -/
def runOnC {γ : Type} (applyKernel : KernelInst → γ → γ)
    (cfg : StaticConfig) (handle : Handle) (e0 e1 e2 : Nat) (c : γ) : γ :=
  match run cfg handle e0 e1 e2 with
  | .error _ => c
  | .ok (k, _) => applyKernel k c

/-- Handle state observed after run, on both the normal and the thrown
exits. -/
def dispatchHandle (r : Except (GemmError × Handle) (KernelInst × Handle)) :
    Handle :=
  match r with
  | .error (_, h) => h
  | .ok (_, h) => h

/-- Whether a call takes the tiled double-buffered path of the SQUARE
heuristic: SQUARE requested, square output, GPU backend, and the layout
feasibility test passed. -/
def tiledPathTaken (cfg : StaticConfig) (handle : Handle)
    (e0 e1 e2 : Nat) : Bool :=
  decide (handle.kernelAlgoType = AlgoType.SQUARE)
    && decide (cMof cfg.batchSzDim e0 e1 e2 = cNof cfg.batchSzDim e0 e1 e2)
    && cfg.onGpu
    && gpuTiledCond cfg.cLayout (cMof cfg.batchSzDim e0 e1 e2)

/-- Whether the main dispatch accepts an identifier for the given
operand/scalar combination: the SIMD pre-check must pass and the identifier
must hit a compiled-in case of the main switch (ARMPL only when the ARMPL
TPL is built in). -/
def recognizedAlgo (cfg : StaticConfig) (a : AlgoType) : Bool :=
  if cfg.isVector && !simdAlgoOk a then false
  else
    match a with
    | .SQUARE => true
    | .KK_SERIAL => true
    | .KK_SERIAL_RANK0 => true
    | .KK_DBLBUF => true
    | .ARMPL => cfg.armplEnabled
    | _ => false

/-- The error run throws for an unrecognized identifier: the SIMD pre-check
error when that check rejects it, the default-case error otherwise. -/
def unsupportedErrorFor (cfg : StaticConfig) (a : AlgoType) : GemmError :=
  if cfg.isVector && !simdAlgoOk a then GemmError.unsupportedSimdAlgo a
  else GemmError.unsupportedAlgo a

/- Concrete configurations and handles used as evaluation points. -/

/-- Host configuration with row-major (LayoutRight) C and batch axis on the
left, scalar value type, no TPLs or special arch flags. -/
def cfgHostLL : StaticConfig :=
  ⟨CLayout.LayoutRight, BatchSzDim.Left, false, false, false, false,
   false, false, false⟩

/-- GPU configuration with row-major (LayoutRight) C and batch axis on the
left. -/
def cfgGpuLR : StaticConfig :=
  ⟨CLayout.LayoutRight, BatchSzDim.Left, false, true, false, false,
   false, false, false⟩

/-- GPU configuration with column-major (LayoutLeft) C, batch axis on the
right, compiled for HIP on the VEGA908 (MI100) architecture. -/
def cfgVega : StaticConfig :=
  ⟨CLayout.LayoutLeft, BatchSzDim.Right, false, true, false, false,
   false, true, false⟩

/-- Handle requesting the SQUARE heuristic. -/
def handleSquare : Handle := ⟨AlgoType.SQUARE, 0, 0, false⟩

/-- A kernel application that would change C, used to exhibit that error
paths leave C unchanged. -/
def bumpKernel : KernelInst → Nat → Nat := fun _ c => c + 1

/-- Batch extent placed for a square c_m by c_m output: extent 0. -/
def squareE0 (d : BatchSzDim) (c_m : Nat) : Nat :=
  match d with
  | .Left => 1
  | .Right => c_m

/-- Batch extent placed for a square c_m by c_m output: extent 2. -/
def squareE2 (d : BatchSzDim) (c_m : Nat) : Nat :=
  match d with
  | .Left => c_m
  | .Right => 1

/-- Whether the dispatcher attempts the tiled double-buffered kernel for a
square c_m by c_m output under the SQUARE heuristic in a configuration. -/
def tiledAttempted (cfg : StaticConfig) (c_m : Nat) : Bool :=
  match run cfg handleSquare (squareE0 cfg.batchSzDim c_m) c_m
      (squareE2 cfg.batchSzDim c_m) with
  | .ok (KernelInst.dblBuf _ _ _ _ _, _) => true
  | _ => false

/- Helper lemmas shared by the claim theorems. -/

/-- The GPU feasibility test spelled out arithmetically. -/
theorem gpuTiledCond_iff (lay : CLayout) (c_m : Nat) :
    gpuTiledCond lay c_m = true ↔
      (match lay with
       | CLayout.LayoutLeft => 16 ≤ c_m
       | CLayout.LayoutRight => (24 ≤ c_m ∧ c_m ≤ 32) ∨ 40 ≤ c_m) := by
  cases lay <;> simp [gpuTiledCond]

/-- On the tiled path of the SQUARE case, run yields the double-buffered
kernel with the computed bounds-check, alpha-tag and tile arguments, and the
handle with teamSz and vecLen set to 8. -/
theorem run_square_tiled_eq (cfg : StaticConfig) (handle : Handle)
    (e0 e1 e2 : Nat)
    (halg : handle.kernelAlgoType = AlgoType.SQUARE)
    (hgpu : cfg.onGpu = true)
    (hsq : cMof cfg.batchSzDim e0 e1 e2 = cNof cfg.batchSzDim e0 e1 e2)
    (hcond : gpuTiledCond cfg.cLayout (cMof cfg.batchSzDim e0 e1 e2) = true) :
    run cfg handle e0 e1 e2 =
      .ok (KernelInst.dblBuf
             (if cMof cfg.batchSzDim e0 e1 e2 % 32 = 0
              then BoundsCheck.No else BoundsCheck.Yes)
             (if kk_gemm_dbl_buf_alpha_in_fma_thresh cfg ≤
                  cMof cfg.batchSzDim e0 e1 e2
              then AlphaTag.Yes else AlphaTag.No)
             (kk_gemm_dlb_buf_tile_m cfg) (kk_gemm_dlb_buf_tile_n cfg)
             (kk_gemm_dlb_buf_tile_k cfg),
           { handle with teamSz := 8, vecLen := 8 }) := by
  have hc2 := hcond
  rw [hsq] at hc2
  simp [run, halg, simdAlgoOk, hsq, hgpu, hc2]

/-- Off the tiled path of the SQUARE case (square output), run falls back to
the serial kernel with the selected mode and results-per-thread arguments,
leaving the handle unchanged. -/
theorem run_square_serial_eq (cfg : StaticConfig) (handle : Handle)
    (e0 e1 e2 : Nat)
    (halg : handle.kernelAlgoType = AlgoType.SQUARE)
    (hsq : cMof cfg.batchSzDim e0 e1 e2 = cNof cfg.batchSzDim e0 e1 e2)
    (hfall : (cfg.onGpu &&
        gpuTiledCond cfg.cLayout (cMof cfg.batchSzDim e0 e1 e2)) = false) :
    run cfg handle e0 e1 e2 =
      .ok (KernelInst.serial (bsgModeType cfg) (bsgResultsPerThread cfg),
           handle) := by
  have hf2 := hfall
  rw [hsq] at hf2
  simp [run, halg, simdAlgoOk, hsq, hf2]

/- Claim theorems. -/

/-- C1: under the SQUARE heuristic, whenever the output extents give c_m
different from c_n (derived per the batching axis order), run throws a
runtime error whose message names c_m and c_n, invokes no kernel, and
leaves C unchanged under any kernel application. -/
theorem square_nonsquare_error (cfg : StaticConfig) (handle : Handle)
    (e0 e1 e2 : Nat)
    (halg : handle.kernelAlgoType = AlgoType.SQUARE)
    (hne : cMof cfg.batchSzDim e0 e1 e2 ≠ cNof cfg.batchSzDim e0 e1 e2) :
    run cfg handle e0 e1 e2 =
      .error (GemmError.nonSquare AlgoType.SQUARE
                (cMof cfg.batchSzDim e0 e1 e2) (cNof cfg.batchSzDim e0 e1 e2),
              handle)
    ∧ (GemmError.nonSquare AlgoType.SQUARE (cMof cfg.batchSzDim e0 e1 e2)
          (cNof cfg.batchSzDim e0 e1 e2)).message =
        "KokkosBatched::BatchedGemm does not support kernelAlgoType = "
          ++ algoName AlgoType.SQUARE ++ " when c_m("
          ++ toString (cMof cfg.batchSzDim e0 e1 e2) ++ ") != c_n("
          ++ toString (cNof cfg.batchSzDim e0 e1 e2) ++ ")"
    ∧ ∀ (γ : Type) (applyKernel : KernelInst → γ → γ) (c : γ),
        runOnC applyKernel cfg handle e0 e1 e2 c = c := by
  have hrun : run cfg handle e0 e1 e2 =
      .error (GemmError.nonSquare AlgoType.SQUARE
                (cMof cfg.batchSzDim e0 e1 e2) (cNof cfg.batchSzDim e0 e1 e2),
              handle) := by
    simp [run, halg, simdAlgoOk, hne]
  refine ⟨hrun, rfl, ?_⟩
  intro γ applyKernel c
  simp [runOnC, hrun]

/-- C1 witness: M = 4, N = 8 under the SQUARE heuristic reports the
non-square error and a C payload survives unchanged even under a kernel
application that would bump it. -/
theorem square_nonsquare_error_witness :
    run cfgHostLL handleSquare 100 4 8 =
      .error (GemmError.nonSquare AlgoType.SQUARE 4 8, handleSquare)
    ∧ runOnC bumpKernel cfgHostLL handleSquare 100 4 8 37 = 37 := by
  have h := square_nonsquare_error cfgHostLL handleSquare 100 4 8 rfl
    (by decide)
  exact ⟨h.1, h.2.2 Nat bumpKernel 37⟩

/-- C2 counterexample: on a GPU backend with row-major (LayoutRight) C
there is no single lower-bound threshold governing the tiled attempt: the
tiled kernel is attempted at c_m = 24 yet not at c_m = 33. -/
theorem square_gpu_no_single_threshold :
    ¬ ∃ t : Nat, ∀ c_m : Nat,
        (tiledAttempted cfgGpuLR c_m = true ↔ t ≤ c_m) := by
  rintro ⟨t, ht⟩
  have h24 : t ≤ 24 := (ht 24).mp (by decide)
  have h33 : tiledAttempted cfgGpuLR 33 = true :=
    (ht 33).mpr (le_trans h24 (by norm_num))
  exact absurd h33 (by decide)

/-- C2 amended: on a GPU backend under the SQUARE heuristic with square
output, the tiled double-buffered kernel is attempted exactly when
column-major (LayoutLeft) C has 16 <= c_m, or row-major (LayoutRight) C has
24 <= c_m <= 32 or 40 <= c_m; otherwise run falls through to the per-item
serial kernel. -/
theorem square_gpu_threshold_characterization (cfg : StaticConfig)
    (handle : Handle) (e0 e1 e2 : Nat)
    (halg : handle.kernelAlgoType = AlgoType.SQUARE)
    (hgpu : cfg.onGpu = true)
    (hsq : cMof cfg.batchSzDim e0 e1 e2 = cNof cfg.batchSzDim e0 e1 e2) :
    ((∃ bc af tm tn tk h2, run cfg handle e0 e1 e2 =
        .ok (KernelInst.dblBuf bc af tm tn tk, h2)) ↔
      (match cfg.cLayout with
       | CLayout.LayoutLeft => 16 ≤ cMof cfg.batchSzDim e0 e1 e2
       | CLayout.LayoutRight =>
           (24 ≤ cMof cfg.batchSzDim e0 e1 e2 ∧
              cMof cfg.batchSzDim e0 e1 e2 ≤ 32)
             ∨ 40 ≤ cMof cfg.batchSzDim e0 e1 e2))
    ∧ (gpuTiledCond cfg.cLayout (cMof cfg.batchSzDim e0 e1 e2) = false →
        run cfg handle e0 e1 e2 =
          .ok (KernelInst.serial (bsgModeType cfg) (bsgResultsPerThread cfg),
               handle)) := by
  by_cases hcond : gpuTiledCond cfg.cLayout (cMof cfg.batchSzDim e0 e1 e2) = true
  · constructor
    · rw [← gpuTiledCond_iff]
      have hrun := run_square_tiled_eq cfg handle e0 e1 e2 halg hgpu hsq hcond
      exact iff_of_true ⟨_, _, _, _, _, _, hrun⟩ hcond
    · intro hfalse
      rw [hcond] at hfalse
      exact absurd hfalse (by decide)
  · have hcf : gpuTiledCond cfg.cLayout (cMof cfg.batchSzDim e0 e1 e2) = false :=
      Bool.eq_false_iff.mpr hcond
    have hrun := run_square_serial_eq cfg handle e0 e1 e2 halg hsq
      (by simp [hcf])
    constructor
    · rw [← gpuTiledCond_iff]
      refine iff_of_false ?_ (by simp [hcf])
      rintro ⟨bc, af, tm, tn, tk, h2, hk⟩
      rw [hrun] at hk
      simp at hk
    · intro _
      exact hrun

/-- C2 witness: with row-major C on a GPU the hypotheses hold at c_m = 28
and the tiled attempt is made there. -/
theorem square_gpu_threshold_characterization_witness :
    cMof cfgGpuLR.batchSzDim 1 28 28 = cNof cfgGpuLR.batchSzDim 1 28 28
    ∧ ∃ bc af tm tn tk h2, run cfgGpuLR handleSquare 1 28 28 =
        .ok (KernelInst.dblBuf bc af tm tn tk, h2) := by
  refine ⟨by decide, ?_⟩
  exact (square_gpu_threshold_characterization cfgGpuLR handleSquare
    1 28 28 rfl rfl (by decide)).1.mpr (Or.inl ⟨by decide, by decide⟩)

/-- C3 counterexample: under the SQUARE heuristic on the HIP VEGA908
configuration with c_m = c_n = 64, the invoked double-buffered kernel uses
a K-tile of 16, which is the default 8 doubled and not the default halved. -/
theorem vega_tile_k_not_halved :
    run cfgVega handleSquare 64 64 10 =
      .ok (KernelInst.dblBuf BoundsCheck.No AlphaTag.Yes 32 32 16,
           ⟨AlgoType.SQUARE, 8, 8, false⟩)
    ∧ kk_gemm_dlb_buf_tile_k cfgVega = 16
    ∧ kk_gemm_dlb_buf_tile_k cfgVega ≠ 8 / 2 := by
  refine ⟨by rfl, by rfl, by decide⟩

/-- C3 amended: when the SQUARE heuristic takes the tiled path, the tile
dimensions are the defaults tile_m = 32, tile_n = 32, tile_k = 8, except on
the HIP VEGA908 (MI100) family where the K-tile is doubled to 16 while
tile_m and tile_n stay at 32. -/
theorem square_tiled_tile_sizes (cfg : StaticConfig) (handle : Handle)
    (e0 e1 e2 : Nat)
    (halg : handle.kernelAlgoType = AlgoType.SQUARE)
    (hgpu : cfg.onGpu = true)
    (hsq : cMof cfg.batchSzDim e0 e1 e2 = cNof cfg.batchSzDim e0 e1 e2)
    (hcond : gpuTiledCond cfg.cLayout (cMof cfg.batchSzDim e0 e1 e2) = true) :
    ∃ bc af, run cfg handle e0 e1 e2 =
      .ok (KernelInst.dblBuf bc af 32 32
             (if cfg.hipVega908 = true then 16 else 8),
           { handle with teamSz := 8, vecLen := 8 }) := by
  refine ⟨if cMof cfg.batchSzDim e0 e1 e2 % 32 = 0
          then BoundsCheck.No else BoundsCheck.Yes,
          if kk_gemm_dbl_buf_alpha_in_fma_thresh cfg ≤
              cMof cfg.batchSzDim e0 e1 e2
          then AlphaTag.Yes else AlphaTag.No, ?_⟩
  rw [run_square_tiled_eq cfg handle e0 e1 e2 halg hgpu hsq hcond]
  simp [kk_gemm_dlb_buf_tile_m, kk_gemm_dlb_buf_tile_n, kk_gemm_dlb_buf_tile_k]

/-- C3 witness: instantiated on the VEGA908 configuration at c_m = 64. -/
theorem square_tiled_tile_sizes_witness :
    ∃ bc af, run cfgVega handleSquare 64 64 10 =
      .ok (KernelInst.dblBuf bc af 32 32 (if cfgVega.hipVega908 = true then 16 else 8),
           { handleSquare with teamSz := 8, vecLen := 8 }) :=
  square_tiled_tile_sizes cfgVega handleSquare 64 64 10 rfl rfl (by decide)
    (by decide)

/-- C4: when the SQUARE heuristic takes the tiled path, the no-bounds-check
instantiation is selected exactly when c_m is a multiple of the row tile
dimension 32, and the bounds-checked instantiation exactly otherwise. -/
theorem square_tiled_bounds_check (cfg : StaticConfig) (handle : Handle)
    (e0 e1 e2 : Nat)
    (halg : handle.kernelAlgoType = AlgoType.SQUARE)
    (hgpu : cfg.onGpu = true)
    (hsq : cMof cfg.batchSzDim e0 e1 e2 = cNof cfg.batchSzDim e0 e1 e2)
    (hcond : gpuTiledCond cfg.cLayout (cMof cfg.batchSzDim e0 e1 e2) = true) :
    ((∃ af tm tn tk h2, run cfg handle e0 e1 e2 =
        .ok (KernelInst.dblBuf BoundsCheck.No af tm tn tk, h2)) ↔
      cMof cfg.batchSzDim e0 e1 e2 % 32 = 0)
    ∧ ((∃ af tm tn tk h2, run cfg handle e0 e1 e2 =
        .ok (KernelInst.dblBuf BoundsCheck.Yes af tm tn tk, h2)) ↔
      ¬ cMof cfg.batchSzDim e0 e1 e2 % 32 = 0) := by
  have hrun := run_square_tiled_eq cfg handle e0 e1 e2 halg hgpu hsq hcond
  by_cases hdiv : cMof cfg.batchSzDim e0 e1 e2 % 32 = 0
  · rw [if_pos hdiv] at hrun
    constructor
    · exact iff_of_true ⟨_, _, _, _, _, hrun⟩ hdiv
    · refine iff_of_false ?_ (by simp [hdiv])
      rintro ⟨af, tm, tn, tk, h2, hk⟩
      rw [hrun] at hk
      simp at hk
  · rw [if_neg hdiv] at hrun
    constructor
    · refine iff_of_false ?_ hdiv
      rintro ⟨af, tm, tn, tk, h2, hk⟩
      rw [hrun] at hk
      simp at hk
    · exact iff_of_true ⟨_, _, _, _, _, hrun⟩ hdiv

/-- C4 witness: at c_m = 48 (not a multiple of 32) on a GPU the
bounds-checked instantiation is selected and the no-bounds-check one is
not. -/
theorem square_tiled_bounds_check_witness :
    (∃ af tm tn tk h2, run cfgGpuLR handleSquare 1 48 48 =
        .ok (KernelInst.dblBuf BoundsCheck.Yes af tm tn tk, h2))
    ∧ ¬ (48 : Nat) % 32 = 0 := by
  have h := square_tiled_bounds_check cfgGpuLR handleSquare 1 48 48 rfl rfl
    (by decide) (by decide)
  exact ⟨h.2.mpr (by decide), by decide⟩

/-- C5: when the SQUARE heuristic takes the tiled path, alpha is applied
inside the fma exactly when c_m reaches the alpha-in-fma threshold, which
is 24 under CUDA relocatable device code and 64 otherwise; below the
threshold alpha is applied in a separate multiply. -/
theorem square_tiled_alpha_tag (cfg : StaticConfig) (handle : Handle)
    (e0 e1 e2 : Nat)
    (halg : handle.kernelAlgoType = AlgoType.SQUARE)
    (hgpu : cfg.onGpu = true)
    (hsq : cMof cfg.batchSzDim e0 e1 e2 = cNof cfg.batchSzDim e0 e1 e2)
    (hcond : gpuTiledCond cfg.cLayout (cMof cfg.batchSzDim e0 e1 e2) = true) :
    ((∃ bc tm tn tk h2, run cfg handle e0 e1 e2 =
        .ok (KernelInst.dblBuf bc AlphaTag.Yes tm tn tk, h2)) ↔
      (if cfg.cudaRdc = true then 24 else 64) ≤ cMof cfg.batchSzDim e0 e1 e2)
    ∧ ((∃ bc tm tn tk h2, run cfg handle e0 e1 e2 =
        .ok (KernelInst.dblBuf bc AlphaTag.No tm tn tk, h2)) ↔
      cMof cfg.batchSzDim e0 e1 e2 < (if cfg.cudaRdc = true then 24 else 64)) := by
  have hrun := run_square_tiled_eq cfg handle e0 e1 e2 halg hgpu hsq hcond
  have hth : kk_gemm_dbl_buf_alpha_in_fma_thresh cfg =
      (if cfg.cudaRdc = true then 24 else 64) := by
    simp [kk_gemm_dbl_buf_alpha_in_fma_thresh]
  rw [hth] at hrun
  by_cases hge : (if cfg.cudaRdc = true then 24 else 64) ≤
      cMof cfg.batchSzDim e0 e1 e2
  · rw [if_pos hge] at hrun
    constructor
    · exact iff_of_true ⟨_, _, _, _, _, hrun⟩ hge
    · refine iff_of_false ?_ (by omega)
      rintro ⟨bc, tm, tn, tk, h2, hk⟩
      rw [hrun] at hk
      simp at hk
  · rw [if_neg hge] at hrun
    constructor
    · refine iff_of_false ?_ hge
      rintro ⟨bc, tm, tn, tk, h2, hk⟩
      rw [hrun] at hk
      simp at hk
    · exact iff_of_true ⟨_, _, _, _, _, hrun⟩ (by omega)

/-- C5 witness: at c_m = 48 without CUDA RDC the separate-multiply
instantiation is selected, since 48 is below the threshold 64. -/
theorem square_tiled_alpha_tag_witness :
    (∃ bc tm tn tk h2, run cfgGpuLR handleSquare 1 48 48 =
        .ok (KernelInst.dblBuf bc AlphaTag.No tm tn tk, h2))
    ∧ (48 : Nat) < 64 := by
  have h := square_tiled_alpha_tag cfgGpuLR handleSquare 1 48 48 rfl rfl
    (by decide) (by decide)
  exact ⟨h.2.mpr (by decide), by decide⟩

/-- C6: for every algorithm identifier not recognized for the given
operand/scalar combination — in particular any identifier other than
KK_SERIAL, SQUARE or ARMPL when the view value type is a SIMD vector
type — run throws a runtime error whose message names the identifier,
invokes no kernel, and leaves C unchanged under any kernel application. -/
theorem unsupported_algo_error (cfg : StaticConfig) (handle : Handle)
    (e0 e1 e2 : Nat)
    (hur : recognizedAlgo cfg handle.kernelAlgoType = false) :
    run cfg handle e0 e1 e2 =
      .error (unsupportedErrorFor cfg handle.kernelAlgoType, handle)
    ∧ (∃ s1 s2 : String,
        (unsupportedErrorFor cfg handle.kernelAlgoType).message =
          s1 ++ algoName handle.kernelAlgoType ++ s2)
    ∧ ∀ (γ : Type) (applyKernel : KernelInst → γ → γ) (c : γ),
        runOnC applyKernel cfg handle e0 e1 e2 c = c := by
  have hrun : run cfg handle e0 e1 e2 =
      .error (unsupportedErrorFor cfg handle.kernelAlgoType, handle) := by
    cases halg : handle.kernelAlgoType <;>
      rw [halg] at hur <;>
      simp only [recognizedAlgo, simdAlgoOk, Bool.not_true, Bool.not_false,
        Bool.and_true, Bool.and_false, if_false] at hur <;>
      simp [run, halg, simdAlgoOk, unsupportedErrorFor] <;>
      first
      | (split_ifs <;> simp_all)
      | simp_all
  refine ⟨hrun, ?_, ?_⟩
  · unfold unsupportedErrorFor
    split_ifs with h
    · exact ⟨"KokkosBatched::BatchedGemm does not support kernelAlgoType = ",
             " with SIMD views.", rfl⟩
    · exact ⟨"KokkosBatched::BatchedGemm does not support kernelAlgoType = ",
             ".", rfl⟩
  · intro γ applyKernel c
    simp [runOnC, hrun]

/-- C6 witness: the KK_TEAM identifier with scalar views is not recognized;
the call reports it and a C payload survives a bumping kernel application
unchanged. -/
theorem unsupported_algo_error_witness :
    recognizedAlgo cfgHostLL AlgoType.KK_TEAM = false
    ∧ run cfgHostLL ⟨AlgoType.KK_TEAM, 0, 0, false⟩ 4 4 4 =
        .error (unsupportedErrorFor cfgHostLL AlgoType.KK_TEAM,
                ⟨AlgoType.KK_TEAM, 0, 0, false⟩)
    ∧ runOnC bumpKernel cfgHostLL ⟨AlgoType.KK_TEAM, 0, 0, false⟩ 4 4 4 37 = 37 := by
  have h := unsupported_algo_error cfgHostLL ⟨AlgoType.KK_TEAM, 0, 0, false⟩
    4 4 4 (by decide)
  exact ⟨by decide, h.1, h.2.2 Nat bumpKernel 37⟩

/-- C9: run writes teamSz and vecLen, both to 8, exactly when the SQUARE
heuristic takes the tiled double-buffered path; every other dispatch path,
the error paths included, leaves every handle field unchanged, and on the
tiled path the invoked kernel is the double-buffered one. -/
theorem dispatch_handle_mutation (cfg : StaticConfig) (handle : Handle)
    (e0 e1 e2 : Nat) :
    dispatchHandle (run cfg handle e0 e1 e2) =
      (if tiledPathTaken cfg handle e0 e1 e2 = true
       then { handle with teamSz := 8, vecLen := 8 } else handle)
    ∧ (tiledPathTaken cfg handle e0 e1 e2 = true →
        ∃ bc af tm tn tk h2, run cfg handle e0 e1 e2 =
          .ok (KernelInst.dblBuf bc af tm tn tk, h2)) := by
  by_cases hsimd : (cfg.isVector && !simdAlgoOk handle.kernelAlgoType) = true
  · have halg : handle.kernelAlgoType ≠ AlgoType.SQUARE := by
      intro h
      rw [h] at hsimd
      simp [simdAlgoOk] at hsimd
    constructor
    · rw [if_neg]
      · simp [run, dispatchHandle, hsimd]
      · simp [tiledPathTaken, halg]
    · intro ht
      simp [tiledPathTaken, halg] at ht
  · have hsimd2 : (cfg.isVector && !simdAlgoOk handle.kernelAlgoType) = false :=
      Bool.eq_false_iff.mpr hsimd
    by_cases halg : handle.kernelAlgoType = AlgoType.SQUARE
    · by_cases hsq : cMof cfg.batchSzDim e0 e1 e2 = cNof cfg.batchSzDim e0 e1 e2
      · by_cases hc : (cfg.onGpu &&
            gpuTiledCond cfg.cLayout (cMof cfg.batchSzDim e0 e1 e2)) = true
        · have hc0 := hc
          simp only [Bool.and_eq_true] at hc0
          have hgpu : cfg.onGpu = true := hc0.1
          have hcond : gpuTiledCond cfg.cLayout (cMof cfg.batchSzDim e0 e1 e2) = true :=
            hc0.2
          have hcond2 := hcond
          rw [hsq] at hcond2
          have hrun := run_square_tiled_eq cfg handle e0 e1 e2 halg hgpu hsq hcond
          have htp : tiledPathTaken cfg handle e0 e1 e2 = true := by
            simp [tiledPathTaken, halg, hsq, hgpu, hcond2]
          rw [htp]
          exact ⟨by rw [hrun]; rfl, fun _ => ⟨_, _, _, _, _, _, hrun⟩⟩
        · have hc2 : (cfg.onGpu &&
              gpuTiledCond cfg.cLayout (cMof cfg.batchSzDim e0 e1 e2)) = false :=
            Bool.eq_false_iff.mpr hc
          have hrun := run_square_serial_eq cfg handle e0 e1 e2 halg hsq hc2
          have htp : tiledPathTaken cfg handle e0 e1 e2 = false := by
            unfold tiledPathTaken
            rw [Bool.and_assoc, hc2, Bool.and_false]
          rw [htp]
          refine ⟨by rw [hrun]; rfl, ?_⟩
          intro ht
          simp at ht
      · have htp : tiledPathTaken cfg handle e0 e1 e2 = false := by
          simp [tiledPathTaken, hsq]
        have hrun : run cfg handle e0 e1 e2 =
            .error (GemmError.nonSquare AlgoType.SQUARE
                      (cMof cfg.batchSzDim e0 e1 e2)
                      (cNof cfg.batchSzDim e0 e1 e2), handle) := by
          simp [run, halg, simdAlgoOk, hsq]
        rw [htp]
        refine ⟨by rw [hrun]; rfl, ?_⟩
        intro ht
        simp at ht
    · have htp : tiledPathTaken cfg handle e0 e1 e2 = false := by
        simp [tiledPathTaken, halg]
      rw [htp]
      refine ⟨?_, ?_⟩
      · rw [if_neg (show ¬ (false = true) by decide)]
        cases halg2 : handle.kernelAlgoType <;>
          simp_all [run, dispatchHandle, simdAlgoOk] <;>
          split_ifs <;>
          simp [dispatchHandle]
      · intro ht
        exact absurd ht (by decide)

/-- C10: a handle requesting the explicit KK_DBLBUF identifier always
yields the double-buffered kernel with tile dimensions 1, 1, 1, bounds
checking enabled and alpha applied in a separate multiply, for every
configuration with a scalar value type, and whenever any kernel is invoked
at all the instantiation is that one and the handle is unchanged. -/
theorem kk_dblbuf_fixed_instantiation (cfg : StaticConfig) (handle : Handle)
    (e0 e1 e2 : Nat)
    (halg : handle.kernelAlgoType = AlgoType.KK_DBLBUF) :
    (cfg.isVector = false →
      run cfg handle e0 e1 e2 =
        .ok (KernelInst.dblBuf BoundsCheck.Yes AlphaTag.No 1 1 1, handle))
    ∧ (∀ k h2, run cfg handle e0 e1 e2 = .ok (k, h2) →
        k = KernelInst.dblBuf BoundsCheck.Yes AlphaTag.No 1 1 1 ∧ h2 = handle) := by
  constructor
  · intro hv
    simp [run, halg, simdAlgoOk, hv]
  · intro k h2 hk
    by_cases hv : cfg.isVector = true
    · simp [run, halg, simdAlgoOk, hv] at hk
    · have hv2 : cfg.isVector = false := Bool.eq_false_iff.mpr hv
      simp [run, halg, simdAlgoOk, hv2] at hk
      exact ⟨hk.1.symm, hk.2.symm⟩

/-- C10 witness: KK_DBLBUF on a GPU with a large square shape still yields
the 1x1x1 bounds-checked separate-multiply instantiation. -/
theorem kk_dblbuf_fixed_instantiation_witness :
    run cfgGpuLR ⟨AlgoType.KK_DBLBUF, 0, 0, false⟩ 1 128 128 =
      .ok (KernelInst.dblBuf BoundsCheck.Yes AlphaTag.No 1 1 1,
           ⟨AlgoType.KK_DBLBUF, 0, 0, false⟩) :=
  (kk_dblbuf_fixed_instantiation cfgGpuLR ⟨AlgoType.KK_DBLBUF, 0, 0, false⟩
    1 128 128 rfl).1 rfl

/- Shallow embedding of the rank-3 TeamVectorGemv specializations. -/

/-- Transpose modes with a rank-3 TeamVectorGemv specialization in the file
(ConjTranspose has none, so instantiating it is a compile-time failure). -/
inductive TransMode
  | NoTranspose
  | Transpose
  deriving DecidableEq

/-- Gemv algorithm tag (Algo::Gemv). -/
inductive GemvAlgo
  | Unblocked
  | Blocked
  deriving DecidableEq

/-- Geometric metadata of a rank-3 A view: the three extents, the three
strides, and an identifier standing for the data pointer. -/
structure GemvView3 where
  e0 : Nat
  e1 : Nat
  e2 : Nat
  s0 : Nat
  s1 : Nat
  s2 : Nat
  dataId : Nat
  deriving DecidableEq

/-- Geometric metadata of a rank-2 x or y view: two strides and a data
pointer identifier. -/
structure GemvVec where
  vs0 : Nat
  vs1 : Nat
  vdataId : Nat
  deriving DecidableEq

/-- The argument tuple handed to TeamVectorGemvInternal invoke: batch
count, the two matrix axis extents, alpha, the A pointer and its three
strides in the order passed, the x pointer and strides, beta, the y pointer
and strides. -/
structure GemvInternalCall where
  N : Nat
  m : Nat
  n : Nat
  alpha : Int
  aData : Nat
  as0 : Nat
  as1 : Nat
  as2 : Nat
  xData : Nat
  xs0 : Nat
  xs1 : Nat
  beta : Int
  yData : Nat
  ys0 : Nat
  ys1 : Nat
  deriving DecidableEq

/-- Observable outcome of a TeamVectorGemv invoke: either the delegated
internal-kernel call (the functions return its integer status) or a
process-terminating Kokkos::abort with its message. -/
inductive GemvOutcome
  | internalInvoke (algo : GemvAlgo) (call : GemvInternalCall)
  | abort (msg : String)
  deriving DecidableEq

/-- Shallow embedding of the four TeamVectorGemv rank-3 specializations:
NoTranspose/Unblocked passes extents 0,1,2 and strides 0,1,2 of A;
Transpose/Unblocked passes extents 0,2,1 and strides 0,2,1; both Blocked
specializations call Kokkos::abort. -/
def teamVectorGemvInvoke (trans : TransMode) (algo : GemvAlgo) (alpha : Int)
    (A : GemvView3) (x : GemvVec) (beta : Int) (y : GemvVec) : GemvOutcome :=
  match trans, algo with
  | .NoTranspose, .Unblocked =>
    .internalInvoke .Unblocked
      ⟨A.e0, A.e1, A.e2, alpha, A.dataId, A.s0, A.s1, A.s2,
       x.vdataId, x.vs0, x.vs1, beta, y.vdataId, y.vs0, y.vs1⟩
  | .Transpose, .Unblocked =>
    .internalInvoke .Unblocked
      ⟨A.e0, A.e2, A.e1, alpha, A.dataId, A.s0, A.s2, A.s1,
       x.vdataId, x.vs0, x.vs1, beta, y.vdataId, y.vs0, y.vs1⟩
  | _, .Blocked =>
    .abort ("KokkosBatched::TeamVectorGemv<Algo::Gemv::Blocked> for rank-3 "
      ++ "matrix is NOT implemented")

/-- The view obtained from A by swapping its last two geometric axes:
extents 1 and 2 and strides 1 and 2 trade places, the data pointer stays. -/
def GemvView3.swapLastAxes (A : GemvView3) : GemvView3 :=
  { A with e1 := A.e2, e2 := A.e1, s1 := A.s2, s2 := A.s1 }

/-- C7: for every transpose mode and all arguments, the rank-3
TeamVectorGemv with the blocked algorithm is a fatal unimplemented-path
fault: it aborts with the not-implemented message instead of delegating to
the internal kernel and returning a status. -/
theorem teamVectorGemv_blocked_aborts (trans : TransMode) (alpha : Int)
    (A : GemvView3) (x : GemvVec) (beta : Int) (y : GemvVec) :
    teamVectorGemvInvoke trans GemvAlgo.Blocked alpha A x beta y =
      GemvOutcome.abort ("KokkosBatched::TeamVectorGemv<Algo::Gemv::Blocked> "
        ++ "for rank-3 matrix is NOT implemented")
    ∧ ∀ al call, teamVectorGemvInvoke trans GemvAlgo.Blocked alpha A x beta y ≠
        GemvOutcome.internalInvoke al call := by
  cases trans <;> exact ⟨rfl, fun al call h => by simp [teamVectorGemvInvoke] at h⟩

/-- C8: the Transpose/Unblocked rank-3 TeamVectorGemv makes exactly the
internal call that NoTranspose/Unblocked makes on the view of A with its
last two geometric axes (extents 1 and 2, strides 1 and 2) swapped, and the
swap keeps the data pointer, so no transposed copy of A is materialized. -/
theorem teamVectorGemv_transpose_swaps_axes (alpha : Int) (A : GemvView3)
    (x : GemvVec) (beta : Int) (y : GemvVec) :
    teamVectorGemvInvoke TransMode.Transpose GemvAlgo.Unblocked alpha A x beta y =
      teamVectorGemvInvoke TransMode.NoTranspose GemvAlgo.Unblocked alpha
        (GemvView3.swapLastAxes A) x beta y
    ∧ (GemvView3.swapLastAxes A).dataId = A.dataId :=
  ⟨rfl, rfl⟩
